import Mathlib

/-!
Verification of the TCP port forwarder in `reroute.py`.

The development shallowly embeds the forwarder: sockets are records
carrying a closed flag and an oracle saying whether the OS-level close
fails, the byte stream arriving at a socket is a finite trace of receive
events, and the kernel's acceptance of outgoing bytes is a finite script
of send events.  Machine loops are embedded with an explicit fuel
argument; a fuel-out result is reported as `blocked` (the loop was still
running when the observed trace ended), never silently converted into a
termination.
-/

/-- Bytes are modelled as natural numbers; the forwarder never inspects
them, so no range constraint is needed. -/
abbrev Byte := Nat

/-- Connection-level errors raised by socket operations.  `reset` is
`ConnectionResetError`, `brokenPipe` is `BrokenPipeError`, and `other n`
stands for any remaining `socket.error` (`OSError`), tagged by a code.
All three are subclasses of `OSError` in Python, hence all are caught by
an `except socket.error` clause. -/
inductive SocketErr where
  | reset
  | brokenPipe
  | other (code : Nat)
deriving DecidableEq, Repr

/-- State of one Python socket object: whether it has been closed at the
Python level, and an oracle telling whether the first OS-level close of
this socket fails with a `socket.error`. -/
structure PySocket where
  closed : Bool
  closeErr : Bool
deriving DecidableEq, Repr

/-- `socket.close()` as CPython implements it: on a socket already
closed the call is a no-op and never raises; on an open socket the
file descriptor is detached first (so the socket is closed from then
on) and the OS-level close may then raise a `socket.error`. -/
def PySocket.close (s : PySocket) : PySocket × Option SocketErr :=
  if s.closed then (s, none)
  else ({ s with closed := true }, if s.closeErr then some (SocketErr.other 0) else none)

/-- A close wrapped in `try: ... except socket.error: pass`, as in the
`finally` block of `forward_data`: the socket ends closed and no error
ever propagates. -/
def guardedClose (s : PySocket) : PySocket × Option SocketErr :=
  match s.close with
  | (s2, some _) => (s2, none)
  | (s2, none) => (s2, none)

/-- One event on the receive side of a socket: a segment of arrived
data, a clean FIN (after which `recv` returns an empty bytes object), or
an error raised by `recv`. -/
inductive RecvEvent where
  | seg (data : List Byte)
  | fin
  | rerr (e : SocketErr)
deriving DecidableEq, Repr

/-- Result of one `recv` call against a receive trace. -/
inductive RecvOutcome where
  | bytes (chunk : List Byte) (rest : List RecvEvent)
  | fail (e : SocketErr) (rest : List RecvEvent)
  | wouldBlock
deriving DecidableEq, Repr

/-- `source_socket.recv(bufsize)`: returns up to `bufsize` bytes from
the front of the receive buffer, pushing any leftover of the current
segment back; returns the empty chunk on FIN; raises on an error event;
blocks when the trace is exhausted. -/
def recv (bufsize : Nat) : List RecvEvent → RecvOutcome
  | [] => RecvOutcome.wouldBlock
  | RecvEvent.seg d :: rest =>
      let chunk := d.take bufsize
      let leftover := d.drop bufsize
      RecvOutcome.bytes chunk (if leftover = [] then rest else RecvEvent.seg leftover :: rest)
  | RecvEvent.fin :: rest => RecvOutcome.bytes [] rest
  | RecvEvent.rerr e :: rest => RecvOutcome.fail e rest

/-- One event on the send side: the kernel accepts up to `n` bytes from
a single underlying `send`, or the `send` raises an error. -/
inductive SendEvent where
  | accept (n : Nat)
  | serr (e : SocketErr)
deriving DecidableEq, Repr

/-- Result of one `sendall` call: all bytes flushed, an error raised
after some bytes were flushed, or the call still blocked when its send
script ran out. -/
inductive SendallResult where
  | sent (flushed : List Byte)
  | sfail (e : SocketErr) (flushed : List Byte)
  | sblocked (flushed : List Byte)
deriving DecidableEq, Repr

/-- `destination_socket.sendall(data)` following the documented CPython
contract: repeatedly call the underlying `send`, which flushes some
prefix of the remaining bytes, until every byte is flushed or a send
raises; the bytes flushed before an error have reached the peer. -/
def sendallModel : List Byte → List SendEvent → SendallResult
  | [], _ => SendallResult.sent []
  | _ :: _, [] => SendallResult.sblocked []
  | _ :: _, SendEvent.serr e :: _ => SendallResult.sfail e []
  | d :: ds, SendEvent.accept n :: script =>
      let k := min n (d :: ds).length
      match sendallModel ((d :: ds).drop k) script with
      | SendallResult.sent w => SendallResult.sent ((d :: ds).take k ++ w)
      | SendallResult.sfail e w => SendallResult.sfail e ((d :: ds).take k ++ w)
      | SendallResult.sblocked w => SendallResult.sblocked ((d :: ds).take k ++ w)

/-- `BUFFER_SIZE = 4096`, the bytes read per `recv` call. -/
def BUFFER_SIZE : Nat := 4096

/-- How the copy loop of `forward_data` stopped. -/
inductive LoopOutcome where
  | eofStop
  | errStop (e : SocketErr)
  | blocked
deriving DecidableEq, Repr

/-- Result of running the copy loop against finite traces: how it
stopped, the bytes written to the destination in order, and the part of
the receive trace not yet consumed. -/
structure LoopResult where
  outcome : LoopOutcome
  written : List Byte
  rest : List RecvEvent
deriving DecidableEq, Repr

/-- How the copy loop stops when it meets a given terminator event: a
FIN means a clean break, a receive error means that error; data
segments never stop the loop (the value on them is irrelevant here). -/
def termOutcome : RecvEvent → LoopOutcome
  | RecvEvent.rerr e => LoopOutcome.errStop e
  | _ => LoopOutcome.eofStop

/-- The copy loop of `forward_data`, with explicit fuel:
`while True: data = recv(BUFFER_SIZE); if not data: break; sendall(data)`.
`sends k` is the send script consumed by the k-th `sendall` call.
Fuel exhaustion, a blocking `recv`, and a blocking `sendall` all yield
`blocked`: the loop had not terminated within the observed trace. -/
def forwardLoopFuel (sends : Nat → List SendEvent) :
    Nat → Nat → List RecvEvent → LoopResult
  | 0, _, evs => ⟨LoopOutcome.blocked, [], evs⟩
  | fuel + 1, k, evs =>
      match recv BUFFER_SIZE evs with
      | RecvOutcome.wouldBlock => ⟨LoopOutcome.blocked, [], evs⟩
      | RecvOutcome.fail e rest => ⟨LoopOutcome.errStop e, [], rest⟩
      | RecvOutcome.bytes chunk rest =>
          if chunk = [] then ⟨LoopOutcome.eofStop, [], rest⟩
          else
            match sendallModel chunk (sends k) with
            | SendallResult.sent w =>
                let r := forwardLoopFuel sends fuel (k + 1) rest
                ⟨r.outcome, w ++ r.written, r.rest⟩
            | SendallResult.sfail e w => ⟨LoopOutcome.errStop e, w, rest⟩
            | SendallResult.sblocked w => ⟨LoopOutcome.blocked, w, rest⟩

/-- Total bytes sitting in data segments of a receive trace. -/
def totalSegBytes : List RecvEvent → Nat
  | [] => 0
  | RecvEvent.seg d :: rest => d.length + totalSegBytes rest
  | _ :: rest => totalSegBytes rest

/-- Fuel bound sufficient for the copy loop: every iteration either
terminates or removes at least one byte or one event from the trace. -/
def loopMeasure (evs : List RecvEvent) : Nat :=
  evs.length + totalSegBytes evs

/-- The copy loop of `forward_data` run with sufficient fuel. -/
def forwardLoop (sends : Nat → List SendEvent) (evs : List RecvEvent) : LoopResult :=
  forwardLoopFuel sends (loopMeasure evs + 1) 0 evs

/-- The message category printed when the loop stops. -/
inductive LogMsg where
  | closedBySource
  | resetByPeer
  | brokenPipeMsg
  | socketErrorMsg
deriving DecidableEq, Repr

/-- The `except` clauses of `forward_data`: `ConnectionResetError`,
`BrokenPipeError` and `socket.error` are each caught and only logged;
the returned option is what would propagate past the handlers. -/
def catchHandlers : SocketErr → LogMsg × Option SocketErr
  | SocketErr.reset => (LogMsg.resetByPeer, none)
  | SocketErr.brokenPipe => (LogMsg.brokenPipeMsg, none)
  | SocketErr.other _ => (LogMsg.socketErrorMsg, none)

/-- Final state of one `forward_data` invocation that has returned. -/
structure FwdResult where
  outcome : LoopOutcome
  written : List Byte
  src : PySocket
  dst : PySocket
  logged : LogMsg
  raised : Option SocketErr
deriving DecidableEq, Repr

/-- `forward_data(source_socket, destination_socket, ...)`: run the copy
loop inside `try`; on a clean break or a caught error reach the
`finally` block, which closes source then destination, each close
guarded by its own `except socket.error: pass`.  Returns `none` while
the loop is still running (blocked trace): the `finally` block has not
run yet. -/
def forward_data (srcSock dstSock : PySocket) (sends : Nat → List SendEvent)
    (evs : List RecvEvent) : Option FwdResult :=
  let r := forwardLoop sends evs
  match r.outcome with
  | LoopOutcome.blocked => none
  | LoopOutcome.eofStop =>
      let (s2, e1) := guardedClose srcSock
      let (d2, e2) := guardedClose dstSock
      some ⟨LoopOutcome.eofStop, r.written, s2, d2, LogMsg.closedBySource,
            (e1.orElse fun _ => e2)⟩
  | LoopOutcome.errStop e =>
      let (msg, esc) := catchHandlers e
      let (s2, e1) := guardedClose srcSock
      let (d2, e2) := guardedClose dstSock
      some ⟨LoopOutcome.errStop e, r.written, s2, d2, msg,
            ((esc.orElse fun _ => e1).orElse fun _ => e2)⟩

/-- Roles of the two endpoints of a session. -/
inductive Endpoint where
  | client
  | remote
deriving DecidableEq, Repr

/-- A forwarding thread as started by `handle_client_connection`: its
source endpoint, its destination endpoint, and its daemon flag. -/
structure ForwardingTask where
  src : Endpoint
  dst : Endpoint
  daemon : Bool
deriving DecidableEq, Repr

/-- How the remote-connection phase of `handle_client_connection` went:
`socket.socket(...)` raised (so `remote_socket` stayed `None`),
`connect` raised (the socket object exists but is unconnected), or the
connect succeeded. -/
inductive ConnectOutcome where
  | ok
  | createFail (e : SocketErr)
  | connectFail (e : SocketErr)
deriving DecidableEq, Repr

/-- State of `handle_client_connection` at the point it returns. -/
structure HandleResult where
  clientSock : PySocket
  remoteSock : Option PySocket
  tasks : List ForwardingTask
  joined : Bool
  raised : Option SocketErr
deriving DecidableEq, Repr

/-- `handle_client_connection(client_socket, ...)`: create a socket and
connect it to the remote target inside `try`; on a `socket.error` close
the client socket, close the remote socket if the object exists, and
return with no threads started; on success start exactly the two
forwarding threads (client to remote, remote to client), both daemon,
and return without joining either (the join calls are commented out in
the source).  `remoteCloseErr` is the close-failure oracle attached to
the freshly created remote socket. -/
def handle_client_connection (clientSock : PySocket) (remoteCloseErr : Bool)
    (outcome : ConnectOutcome) : HandleResult :=
  match outcome with
  | ConnectOutcome.createFail _ =>
      match clientSock.close with
      | (c2, some err) => ⟨c2, none, [], false, some err⟩
      | (c2, none) => ⟨c2, none, [], false, none⟩
  | ConnectOutcome.connectFail _ =>
      let remoteSock : PySocket := ⟨false, remoteCloseErr⟩
      match clientSock.close with
      | (c2, some err) => ⟨c2, some remoteSock, [], false, some err⟩
      | (c2, none) =>
          match remoteSock.close with
          | (r2, re) => ⟨c2, some r2, [], false, re⟩
  | ConnectOutcome.ok =>
      let remoteSock : PySocket := ⟨false, remoteCloseErr⟩
      ⟨clientSock, some remoteSock,
       [⟨Endpoint.client, Endpoint.remote, true⟩,
        ⟨Endpoint.remote, Endpoint.client, true⟩],
       false, none⟩

/-- One event observed by the accept loop of `start_server`: a client
connection identified by a number, a `socket.error` raised by `accept`,
or a `KeyboardInterrupt`. -/
inductive AcceptEvent where
  | conn (c : Nat)
  | aerr (e : SocketErr)
  | kbi
deriving DecidableEq, Repr

/-- Whether an accept event is the `KeyboardInterrupt`. -/
def isKbi : AcceptEvent → Bool
  | AcceptEvent.kbi => true
  | _ => false

/-- Result of running the accept loop over a finite event trace:
the client handlers spawned, in order, and whether the loop exited
(`stopped = false` means it was still looping when the trace ended). -/
structure AcceptLoopResult where
  handlers : List Nat
  stopped : Bool
deriving DecidableEq, Repr

/-- The accept loop of `start_server`: each accepted connection spawns a
handler thread and the loop continues; an `except socket.error` logs and
continues; an `except KeyboardInterrupt` breaks. -/
def acceptLoop : List AcceptEvent → AcceptLoopResult
  | [] => ⟨[], false⟩
  | AcceptEvent.conn c :: rest =>
      let r := acceptLoop rest
      ⟨c :: r.handlers, r.stopped⟩
  | AcceptEvent.aerr _ :: rest => acceptLoop rest
  | AcceptEvent.kbi :: _ => ⟨[], true⟩

/-- How the setup phase of `start_server` went: socket creation failed,
`bind` failed, `listen` failed, or everything succeeded. -/
inductive SetupOutcome where
  | ok
  | createFail (e : SocketErr)
  | bindFail (e : SocketErr)
  | listenFail (e : SocketErr)
deriving DecidableEq, Repr

/-- The listening socket together with the options `start_server` set on
it: `SO_REUSEADDR`, the bound address, and the `listen` backlog. -/
structure ListenSock where
  sock : PySocket
  reuseaddr : Bool
  bound : Option (String × Int)
  backlog : Option Nat
deriving DecidableEq, Repr

/-- The listening socket as it stands when setup ends, per outcome:
creation happens first, then `setsockopt(SO_REUSEADDR, 1)`, then
`bind`, then `listen(5)`. -/
def setupListenSock (lh : String) (lp : Int) (closeErr : Bool) :
    SetupOutcome → Option ListenSock
  | SetupOutcome.createFail _ => none
  | SetupOutcome.bindFail _ => some ⟨⟨false, closeErr⟩, true, none, none⟩
  | SetupOutcome.listenFail _ => some ⟨⟨false, closeErr⟩, true, some (lh, lp), none⟩
  | SetupOutcome.ok => some ⟨⟨false, closeErr⟩, true, some (lh, lp), some 5⟩

/-- How `start_server` ended. -/
inductive ServerOutcome where
  | setupFailed
  | interrupted
  | stillRunning
deriving DecidableEq, Repr

/-- Final state of one `start_server` invocation over a finite accept
trace. -/
structure ServerResult where
  serverSock : Option ListenSock
  loopEntered : Bool
  handlers : List Nat
  outcome : ServerOutcome
  errorLogged : Bool
  raised : Option SocketErr
deriving DecidableEq, Repr

/-- `start_server(local_host, local_port, ...)`: create, configure, bind
and listen inside `try`; a `socket.error` there is logged as fatal and
the accept loop is never entered; otherwise run the accept loop until a
`KeyboardInterrupt` breaks it; the `finally` block closes the server
socket whenever the object exists (this close is not guarded, so an
OS-level close failure would propagate). -/
def start_server (lh : String) (lp : Int) (closeErr : Bool)
    (setup : SetupOutcome) (trace : List AcceptEvent) : ServerResult :=
  match setup, setupListenSock lh lp closeErr setup with
  | SetupOutcome.createFail _, _ =>
      ⟨none, false, [], ServerOutcome.setupFailed, true, none⟩
  | SetupOutcome.bindFail _, some ls =>
      match ls.sock.close with
      | (s2, ce) =>
          ⟨some { ls with sock := s2 }, false, [], ServerOutcome.setupFailed, true, ce⟩
  | SetupOutcome.listenFail _, some ls =>
      match ls.sock.close with
      | (s2, ce) =>
          ⟨some { ls with sock := s2 }, false, [], ServerOutcome.setupFailed, true, ce⟩
  | SetupOutcome.ok, some ls =>
      let r := acceptLoop trace
      if r.stopped then
        match ls.sock.close with
        | (s2, ce) =>
            ⟨some { ls with sock := s2 }, true, r.handlers, ServerOutcome.interrupted,
             false, ce⟩
      else
        ⟨some ls, true, r.handlers, ServerOutcome.stillRunning, false, none⟩
  | SetupOutcome.bindFail _, none => ⟨none, false, [], ServerOutcome.setupFailed, true, none⟩
  | SetupOutcome.listenFail _, none => ⟨none, false, [], ServerOutcome.setupFailed, true, none⟩
  | SetupOutcome.ok, none => ⟨none, false, [], ServerOutcome.setupFailed, true, none⟩

/-- Default local bind host. -/
def DEFAULT_LOCAL_HOST : String := "0.0.0.0"

/-- Default local bind port. -/
def DEFAULT_LOCAL_PORT : Int := 8080

/-- Default remote target host. -/
def DEFAULT_REMOTE_HOST : String := "147.194.66.13"

/-- Default remote target port. -/
def DEFAULT_REMOTE_PORT : Int := 8080

/-- Whether the remote-connection phase failed (either at socket
creation or at `connect`). -/
def ConnectOutcome.isFail : ConnectOutcome → Bool
  | ConnectOutcome.ok => false
  | _ => true

/-- Bytes forwarded by a finished `handle_client_connection` attempt:
whatever the forwarding tasks it started would write, given by `run`,
concatenated.  An attempt that started no task forwards nothing. -/
def HandleResult.forwardedBytes (h : HandleResult)
    (run : ForwardingTask → List Byte) : List Byte :=
  (h.tasks.map run).flatten

/-- The parsed command-line configuration: exactly the four options the
argument parser defines. -/
structure Args where
  local_host : String
  local_port : Int
  remote_host : String
  remote_port : Int
deriving DecidableEq, Repr

/-- The argument parser of the entry point: each of the four options may
be given on the command line and otherwise takes its default. -/
def parse_args (lh : Option String) (lp : Option Int)
    (rh : Option String) (rp : Option Int) : Args :=
  ⟨lh.getD DEFAULT_LOCAL_HOST, lp.getD DEFAULT_LOCAL_PORT,
   rh.getD DEFAULT_REMOTE_HOST, rp.getD DEFAULT_REMOTE_PORT⟩

/-- A guarded close leaves the socket closed and propagates nothing. -/
theorem guardedClose_spec (s : PySocket) :
    (guardedClose s).1.closed = true ∧ (guardedClose s).2 = none := by
  rcases s with ⟨c, e⟩
  cases c <;> cases e <;> simp [guardedClose, PySocket.close]

/-- Closing an already-closed socket is a no-op and raises nothing. -/
theorem close_of_closed (s : PySocket) (h : s.closed = true) :
    s.close = (s, none) := by
  simp [PySocket.close, h]

/-- Every connection-level error is caught by one of the `except`
clauses of `forward_data`; nothing escapes past them. -/
theorem catchHandlers_swallows (e : SocketErr) : (catchHandlers e).2 = none := by
  cases e <;> rfl

/-- A `sendall` that reports success has flushed exactly its argument,
in order: the partial-write retry loop drops, duplicates and reorders
nothing. -/
theorem sendallModel_sent_eq (script : List SendEvent) :
    ∀ data w, sendallModel data script = SendallResult.sent w → w = data := by
  induction script with
  | nil =>
      intro data w h
      cases data with
      | nil => simpa [sendallModel] using h.symm
      | cons d ds => simp [sendallModel] at h
  | cons ev rest ih =>
      intro data w h
      cases data with
      | nil => simpa [sendallModel] using h.symm
      | cons d ds =>
          cases ev with
          | serr e => simp [sendallModel] at h
          | accept n =>
              simp only [sendallModel] at h
              split at h
              · rename_i w2 hw2
                cases h
                have := ih _ _ hw2
                subst this
                exact List.take_append_drop _ _
              · cases h
              · cases h

/-- A single `send` that accepts at least the whole buffer makes
`sendall` succeed in one step. -/
theorem sendallModel_accept_full (data : List Byte) (n : Nat)
    (h : data.length ≤ n) :
    sendallModel data [SendEvent.accept n] = SendallResult.sent data := by
  cases data with
  | nil => rfl
  | cons d ds =>
      have hk : min n (ds.length + 1) = ds.length + 1 := by
        simp at h
        omega
      have hd : List.drop (ds.length + 1) (d :: ds) = [] := by
        apply List.drop_eq_nil_of_le
        simp
      have ht : List.take (ds.length + 1) (d :: ds) = d :: ds := by
        apply List.take_of_length_le
        simp
      simp [sendallModel, hk, hd, ht]

/-- One iteration of the copy loop on a non-empty data segment: `recv`
returns one chunk of at most `BUFFER_SIZE` bytes and pushes the
leftover back; the whole chunk is flushed to the destination before the
next read happens. -/
theorem forwardLoopFuel_step_seg (sends : Nat → List SendEvent)
    (fuel k : Nat) (d : List Byte) (tail : List RecvEvent) (hd : d ≠ [])
    (hsent : sendallModel (d.take BUFFER_SIZE) (sends k) =
      SendallResult.sent (d.take BUFFER_SIZE)) :
    forwardLoopFuel sends (fuel + 1) k (RecvEvent.seg d :: tail) =
      ⟨(forwardLoopFuel sends fuel (k + 1)
          (if d.drop BUFFER_SIZE = [] then tail
           else RecvEvent.seg (d.drop BUFFER_SIZE) :: tail)).outcome,
       d.take BUFFER_SIZE ++
         (forwardLoopFuel sends fuel (k + 1)
            (if d.drop BUFFER_SIZE = [] then tail
             else RecvEvent.seg (d.drop BUFFER_SIZE) :: tail)).written,
       (forwardLoopFuel sends fuel (k + 1)
          (if d.drop BUFFER_SIZE = [] then tail
           else RecvEvent.seg (d.drop BUFFER_SIZE) :: tail)).rest⟩ := by
  have hchunk : d.take BUFFER_SIZE ≠ [] := by
    simp [List.take_eq_nil_iff, BUFFER_SIZE, hd]
  simp only [forwardLoopFuel, recv]
  simp [hchunk, hsent]

/-- The copy loop on a trace of non-empty segments followed by a
terminator (FIN or a receive error): every byte of every segment is
written, in order, and the loop stops at the terminator, leaving
whatever follows it untouched. -/
theorem forwardLoopFuel_segs (sends : Nat → List SendEvent)
    (hsend : ∀ j c, c ≠ [] → c.length ≤ BUFFER_SIZE →
      sendallModel c (sends j) = SendallResult.sent c) :
    ∀ (fuel : Nat) (ds : List (List Byte)) (t : RecvEvent)
      (rest : List RecvEvent) (k : Nat),
      ds.flatten.length + ds.length < fuel →
      (∀ d ∈ ds, d ≠ []) →
      (t = RecvEvent.fin ∨ ∃ e, t = RecvEvent.rerr e) →
      forwardLoopFuel sends fuel k (ds.map RecvEvent.seg ++ t :: rest) =
        ⟨termOutcome t, ds.flatten, rest⟩ := by
  intro fuel
  induction fuel with
  | zero =>
      intro ds t rest k h _ _
      omega
  | succ fuel ih =>
      intro ds t rest k h hne ht
      cases ds with
      | nil =>
          rcases ht with h1 | ⟨e, h2⟩
          · subst h1
            simp [forwardLoopFuel, recv, termOutcome]
          · subst h2
            simp [forwardLoopFuel, recv, termOutcome]
      | cons d ds2 =>
          have hd : d ≠ [] := hne d (by simp)
          have hdl : 0 < d.length := List.length_pos.mpr hd
          have hB : BUFFER_SIZE = 4096 := rfl
          have hchunklen : (d.take BUFFER_SIZE).length ≤ BUFFER_SIZE := by
            simp [List.length_take]
          have hchunkne : d.take BUFFER_SIZE ≠ [] := by
            simp [List.take_eq_nil_iff, BUFFER_SIZE, hd]
          have hsent := hsend k _ hchunkne hchunklen
          rw [List.map_cons, List.cons_append,
              forwardLoopFuel_step_seg sends fuel k d _ hd hsent]
          simp only [List.flatten_cons, List.length_append, List.length_cons] at h
          by_cases hdrop : d.drop BUFFER_SIZE = []
          · rw [if_pos hdrop]
            have hlen : d.length ≤ BUFFER_SIZE := by
              have := List.drop_eq_nil_iff.mp hdrop
              exact this
            have hm : ds2.flatten.length + ds2.length < fuel := by omega
            rw [ih ds2 t rest (k + 1) hm (fun x hx => hne x (List.mem_cons_of_mem d hx)) ht]
            simp [List.take_of_length_le hlen]
          · rw [if_neg hdrop]
            have hgt : BUFFER_SIZE < d.length := by
              by_contra hle
              exact hdrop (List.drop_eq_nil_of_le (by omega))
            rw [← List.cons_append, ← List.map_cons]
            have hm : (d.drop BUFFER_SIZE :: ds2).flatten.length +
                (d.drop BUFFER_SIZE :: ds2).length < fuel := by
              simp only [List.flatten_cons, List.length_append, List.length_cons,
                List.length_drop]
              omega
            have hne2 : ∀ x ∈ d.drop BUFFER_SIZE :: ds2, x ≠ [] := by
              intro x hx
              rcases List.mem_cons.mp hx with hx1 | hx2
              · subst hx1
                exact hdrop
              · exact hne x (List.mem_cons_of_mem d hx2)
            rw [ih (d.drop BUFFER_SIZE :: ds2) t rest (k + 1) hm hne2 ht]
            simp [List.flatten_cons, ← List.append_assoc, List.take_append_drop]

/-- Data segments prepended to a trace contribute exactly their
flattened length to the byte count of the trace. -/
theorem totalSegBytes_map_seg_append (ds : List (List Byte)) (l : List RecvEvent) :
    totalSegBytes (ds.map RecvEvent.seg ++ l) = ds.flatten.length + totalSegBytes l := by
  induction ds with
  | nil => simp [totalSegBytes]
  | cons d ds2 ih =>
      simp [totalSegBytes, ih, List.flatten_cons]
      omega

/-- The copy loop with its computed fuel bound, on segments followed by
a terminator: the fuel always suffices, so the result is that of the
ideal unbounded loop. -/
theorem forwardLoop_segs (sends : Nat → List SendEvent)
    (hsend : ∀ j c, c ≠ [] → c.length ≤ BUFFER_SIZE →
      sendallModel c (sends j) = SendallResult.sent c)
    (ds : List (List Byte)) (t : RecvEvent) (rest : List RecvEvent)
    (hne : ∀ d ∈ ds, d ≠ [])
    (ht : t = RecvEvent.fin ∨ ∃ e, t = RecvEvent.rerr e) :
    forwardLoop sends (ds.map RecvEvent.seg ++ t :: rest) =
      ⟨termOutcome t, ds.flatten, rest⟩ := by
  apply forwardLoopFuel_segs sends hsend _ ds t rest 0 _ hne ht
  simp [loopMeasure, totalSegBytes_map_seg_append, List.length_append]
  omega

/-- The accept loop exits exactly when a `KeyboardInterrupt` occurs in
its trace; neither connections nor accept errors stop it. -/
theorem acceptLoop_stopped_any (trace : List AcceptEvent) :
    (acceptLoop trace).stopped = trace.any isKbi := by
  induction trace with
  | nil => rfl
  | cons ev rest ih =>
      cases ev with
      | conn c => simp [acceptLoop, isKbi, ih]
      | aerr e => simp [acceptLoop, isKbi, ih]
      | kbi => simp [acceptLoop, isKbi]

/-- Whenever `forward_data` returns, its `finally` block has closed both
sockets and no error escapes to the caller. -/
theorem forward_data_some_spec (srcSock dstSock : PySocket)
    (sends : Nat → List SendEvent) (evs : List RecvEvent) (res : FwdResult)
    (h : forward_data srcSock dstSock sends evs = some res) :
    res.src.closed = true ∧ res.dst.closed = true ∧ res.raised = none := by
  rcases srcSock with ⟨c1, f1⟩
  rcases dstSock with ⟨c2, f2⟩
  rcases hl : forwardLoop sends evs with ⟨o, w, rst⟩
  unfold forward_data at h
  rw [hl] at h
  cases o with
  | blocked =>
      simp at h
  | eofStop =>
      cases c1 <;> cases f1 <;> cases c2 <;> cases f2 <;>
        simp [guardedClose, PySocket.close] at h <;>
          (subst h; simp)
  | errStop e =>
      cases e <;> cases c1 <;> cases f1 <;> cases c2 <;> cases f2 <;>
        simp [guardedClose, PySocket.close, catchHandlers] at h <;>
          (subst h; simp)

/-- C1: For every finite sequence of non-empty chunks delivered by
successive reads from the source endpoint, the copy loop of
`forward_data` writes to the destination exactly the concatenation of
those chunks, in the order they were read, with no bytes added,
dropped, reordered or altered, stopping at the first empty read (the
FIN) or at the first receive error and leaving later events unread. -/
theorem forward_data_writes_concatenation
    (sends : Nat → List SendEvent) (ds : List (List Byte)) (rest : List RecvEvent)
    (hne : ∀ d ∈ ds, d ≠ [])
    (hsend : ∀ j c, c ≠ [] → c.length ≤ BUFFER_SIZE →
      sendallModel c (sends j) = SendallResult.sent c) :
    forwardLoop sends (ds.map RecvEvent.seg ++ RecvEvent.fin :: rest) =
      ⟨LoopOutcome.eofStop, ds.flatten, rest⟩
    ∧ ∀ e, forwardLoop sends (ds.map RecvEvent.seg ++ RecvEvent.rerr e :: rest) =
      ⟨LoopOutcome.errStop e, ds.flatten, rest⟩ := by
  constructor
  · exact forwardLoop_segs sends hsend ds RecvEvent.fin rest hne (Or.inl rfl)
  · intro e
    exact forwardLoop_segs sends hsend ds (RecvEvent.rerr e) rest hne (Or.inr ⟨e, rfl⟩)

/-- Witness: two chunks over a reliable destination are forwarded as
their concatenation and the loop stops at the FIN. -/
theorem forward_data_writes_concatenation_witness :
    forwardLoop (fun _ => [SendEvent.accept BUFFER_SIZE])
        (([[1, 2, 3], [4, 5]] : List (List Byte)).map RecvEvent.seg ++
          RecvEvent.fin :: [RecvEvent.seg [9]]) =
      ⟨LoopOutcome.eofStop, [1, 2, 3, 4, 5], [RecvEvent.seg [9]]⟩ :=
  (forward_data_writes_concatenation (fun _ => [SendEvent.accept BUFFER_SIZE])
      [[1, 2, 3], [4, 5]] [RecvEvent.seg [9]] (by decide)
      (fun _ c _ hlen => sendallModel_accept_full c BUFFER_SIZE hlen)).1

/-- C2: the copy loop reads at most `BUFFER_SIZE` = 4096 bytes per
`recv`; a zero-byte read terminates the loop normally; a successful
`sendall` has flushed exactly its chunk, retrying partial sends until
every byte is out or an error occurs; and a non-empty read has its
whole chunk written before the next read happens. -/
theorem forward_data_read_write_discipline :
    (∀ (evs : List RecvEvent) (chunk : List Byte) (rest : List RecvEvent),
        recv BUFFER_SIZE evs = RecvOutcome.bytes chunk rest →
        chunk.length ≤ BUFFER_SIZE)
    ∧ (∀ (sends : Nat → List SendEvent) (rest : List RecvEvent),
        forwardLoop sends (RecvEvent.fin :: rest) = ⟨LoopOutcome.eofStop, [], rest⟩)
    ∧ (∀ (data : List Byte) (script : List SendEvent) (w : List Byte),
        sendallModel data script = SendallResult.sent w → w = data)
    ∧ (∀ (sends : Nat → List SendEvent) (fuel k : Nat) (d : List Byte)
        (tail : List RecvEvent), d ≠ [] →
        sendallModel (d.take BUFFER_SIZE) (sends k) =
          SendallResult.sent (d.take BUFFER_SIZE) →
        forwardLoopFuel sends (fuel + 1) k (RecvEvent.seg d :: tail) =
          ⟨(forwardLoopFuel sends fuel (k + 1)
              (if d.drop BUFFER_SIZE = [] then tail
               else RecvEvent.seg (d.drop BUFFER_SIZE) :: tail)).outcome,
           d.take BUFFER_SIZE ++
             (forwardLoopFuel sends fuel (k + 1)
                (if d.drop BUFFER_SIZE = [] then tail
                 else RecvEvent.seg (d.drop BUFFER_SIZE) :: tail)).written,
           (forwardLoopFuel sends fuel (k + 1)
              (if d.drop BUFFER_SIZE = [] then tail
               else RecvEvent.seg (d.drop BUFFER_SIZE) :: tail)).rest⟩) := by
  refine ⟨?_, ?_, ?_, ?_⟩
  · intro evs chunk rest h
    cases evs with
    | nil => simp [recv] at h
    | cons ev evtail =>
        cases ev with
        | seg d =>
            simp only [recv] at h
            cases h
            simp [List.length_take]
        | fin =>
            simp only [recv] at h
            cases h
            simp
        | rerr e => simp [recv] at h
  · intro sends rest
    simp [forwardLoop, forwardLoopFuel, recv]
  · intro data script w h
    exact sendallModel_sent_eq script data w h
  · intro sends fuel k d tail hd hsent
    exact forwardLoopFuel_step_seg sends fuel k d tail hd hsent

/-- Witness: a three-byte chunk flushed across two partial sends is
flushed exactly. -/
theorem forward_data_read_write_discipline_witness :
    sendallModel [5, 6, 7] [SendEvent.accept 2, SendEvent.accept 4] =
      SendallResult.sent [5, 6, 7]
    ∧ ([5, 6, 7] : List Byte) = [5, 6, 7] :=
  ⟨by decide,
   forward_data_read_write_discipline.2.2.1 [5, 6, 7]
     [SendEvent.accept 2, SendEvent.accept 4] [5, 6, 7] (by decide)⟩

/-- C3: for every termination of the copy loop — clean end-of-stream,
connection reset, broken pipe, or any other socket error — the function
closes the source and the destination, each close attempt independently
guarded, and no connection-level error propagates to the caller. -/
theorem forward_data_teardown_guarded
    (srcSock dstSock : PySocket) (sends : Nat → List SendEvent)
    (evs : List RecvEvent) (res : FwdResult)
    (h : forward_data srcSock dstSock sends evs = some res) :
    res.src.closed = true ∧ res.dst.closed = true ∧ res.raised = none :=
  forward_data_some_spec srcSock dstSock sends evs res h

/-- Witness: a run ending in a clean FIN, with a destination whose
OS-level close fails, still ends with both sockets closed and nothing
raised. -/
theorem forward_data_teardown_guarded_witness :
    (⟨LoopOutcome.eofStop, [], ⟨true, false⟩, ⟨true, true⟩,
        LogMsg.closedBySource, none⟩ : FwdResult).src.closed = true
    ∧ (⟨LoopOutcome.eofStop, [], ⟨true, false⟩, ⟨true, true⟩,
        LogMsg.closedBySource, none⟩ : FwdResult).dst.closed = true
    ∧ (⟨LoopOutcome.eofStop, [], ⟨true, false⟩, ⟨true, true⟩,
        LogMsg.closedBySource, none⟩ : FwdResult).raised = none :=
  forward_data_teardown_guarded ⟨false, false⟩ ⟨false, true⟩ (fun _ => [])
    [RecvEvent.fin]
    ⟨LoopOutcome.eofStop, [], ⟨true, false⟩, ⟨true, true⟩,
      LogMsg.closedBySource, none⟩
    (by decide)

/-- C4: session endpoints are closed together.  Whenever a forwarding
task exits its copy loop, both its endpoints end closed; when the
remote connect attempt fails (and closing the client itself does not
fail at the OS level), the client endpoint ends closed and so does the
remote endpoint whenever the object exists; and a second close attempt
on an already-closed endpoint is a no-op that raises nothing. -/
theorem session_endpoints_closed_together :
    (∀ (srcSock dstSock : PySocket) (sends : Nat → List SendEvent)
        (evs : List RecvEvent) (res : FwdResult),
        forward_data srcSock dstSock sends evs = some res →
        res.src.closed = true ∧ res.dst.closed = true)
    ∧ (∀ (clientSock : PySocket) (rce : Bool) (oc : ConnectOutcome),
        oc.isFail = true → clientSock.closeErr = false →
        (handle_client_connection clientSock rce oc).clientSock.closed = true ∧
        ∀ r ∈ (handle_client_connection clientSock rce oc).remoteSock, r.closed = true)
    ∧ (∀ s : PySocket, s.closed = true → s.close = (s, none)) := by
  refine ⟨?_, ?_, close_of_closed⟩
  · intro srcSock dstSock sends evs res h
    exact ⟨(forward_data_some_spec srcSock dstSock sends evs res h).1,
           (forward_data_some_spec srcSock dstSock sends evs res h).2.1⟩
  · intro clientSock rce oc hfail hc
    rcases clientSock with ⟨c, f⟩
    simp only at hc
    subst hc
    cases oc with
    | ok => simp [ConnectOutcome.isFail] at hfail
    | createFail e =>
        cases c <;> cases rce <;>
          simp [handle_client_connection, PySocket.close]
    | connectFail e =>
        cases c <;> cases rce <;>
          simp [handle_client_connection, PySocket.close]

/-- Witness: on a failed connect with a healthy client close, the
client ends closed, and a socket already closed re-closes with no
error raised. -/
theorem session_endpoints_closed_together_witness :
    ((handle_client_connection ⟨false, false⟩ true
        (ConnectOutcome.connectFail SocketErr.reset)).clientSock.closed = true)
    ∧ (⟨true, false⟩ : PySocket).close = (⟨true, false⟩, none) :=
  ⟨(session_endpoints_closed_together.2.1 ⟨false, false⟩ true
      (ConnectOutcome.connectFail SocketErr.reset) (by decide) rfl).1,
   session_endpoints_closed_together.2.2 ⟨true, false⟩ rfl⟩

/-- C5: when the outbound connect to the remote target fails,
`handle_client_connection` closes the client endpoint and returns with
no forwarding task created, so zero bytes are forwarded in either
direction for that attempt. -/
theorem connect_failure_no_tasks
    (clientSock : PySocket) (rce : Bool) (oc : ConnectOutcome)
    (hfail : oc.isFail = true) :
    (handle_client_connection clientSock rce oc).tasks = []
    ∧ (handle_client_connection clientSock rce oc).clientSock.closed = true
    ∧ ∀ run : ForwardingTask → List Byte,
        (handle_client_connection clientSock rce oc).forwardedBytes run = [] := by
  rcases clientSock with ⟨c, f⟩
  cases oc with
  | ok => simp [ConnectOutcome.isFail] at hfail
  | createFail e =>
      cases c <;> cases f <;>
        simp [handle_client_connection, PySocket.close, HandleResult.forwardedBytes]
  | connectFail e =>
      cases c <;> cases f <;> cases rce <;>
        simp [handle_client_connection, PySocket.close, HandleResult.forwardedBytes]

/-- Witness: a refused connect leaves no tasks and a closed client. -/
theorem connect_failure_no_tasks_witness :
    (handle_client_connection ⟨false, false⟩ false
        (ConnectOutcome.connectFail SocketErr.reset)).tasks = []
    ∧ (handle_client_connection ⟨false, false⟩ false
        (ConnectOutcome.connectFail SocketErr.reset)).clientSock.closed = true :=
  ⟨(connect_failure_no_tasks ⟨false, false⟩ false
      (ConnectOutcome.connectFail SocketErr.reset) (by decide)).1,
   (connect_failure_no_tasks ⟨false, false⟩ false
      (ConnectOutcome.connectFail SocketErr.reset) (by decide)).2.1⟩

/-- C6: when the connect succeeds, `handle_client_connection` starts
exactly two forwarding tasks — client to remote and remote to client —
and returns without joining either. -/
theorem connect_success_starts_two_tasks (clientSock : PySocket) (rce : Bool) :
    (handle_client_connection clientSock rce ConnectOutcome.ok).tasks =
      [⟨Endpoint.client, Endpoint.remote, true⟩,
       ⟨Endpoint.remote, Endpoint.client, true⟩]
    ∧ (handle_client_connection clientSock rce ConnectOutcome.ok).tasks.length = 2
    ∧ (handle_client_connection clientSock rce ConnectOutcome.ok).joined = false :=
  ⟨rfl, rfl, rfl⟩

/-- C7: an error raised by a single `accept` call is transient: the
loop continues with the next accept exactly as if the failing call had
not happened, and the loop exits only on a `KeyboardInterrupt` — never
on an accept failure. -/
theorem accept_error_is_transient :
    (∀ (e : SocketErr) (rest : List AcceptEvent),
        acceptLoop (AcceptEvent.aerr e :: rest) = acceptLoop rest)
    ∧ (∀ trace : List AcceptEvent, (acceptLoop trace).stopped = trace.any isKbi) :=
  ⟨fun _ _ => rfl, acceptLoop_stopped_any⟩

/-- C8: a bind or listen failure at startup is fatal — `start_server`
logs an error and returns without entering the accept loop, spawning no
handler and retrying nothing — while a `KeyboardInterrupt` exits the
loop cleanly with the listening socket released. -/
theorem bind_listen_fatal_interrupt_clean :
    (∀ (lh : String) (lp : Int) (ce : Bool) (e : SocketErr)
        (trace : List AcceptEvent),
        ((start_server lh lp ce (SetupOutcome.bindFail e) trace).loopEntered = false
         ∧ (start_server lh lp ce (SetupOutcome.bindFail e) trace).handlers = []
         ∧ (start_server lh lp ce (SetupOutcome.bindFail e) trace).outcome =
             ServerOutcome.setupFailed
         ∧ (start_server lh lp ce (SetupOutcome.bindFail e) trace).errorLogged = true)
        ∧ ((start_server lh lp ce (SetupOutcome.listenFail e) trace).loopEntered = false
         ∧ (start_server lh lp ce (SetupOutcome.listenFail e) trace).handlers = []
         ∧ (start_server lh lp ce (SetupOutcome.listenFail e) trace).outcome =
             ServerOutcome.setupFailed
         ∧ (start_server lh lp ce (SetupOutcome.listenFail e) trace).errorLogged = true))
    ∧ (∀ (lh : String) (lp : Int) (trace : List AcceptEvent),
        trace.any isKbi = true →
        (start_server lh lp false SetupOutcome.ok trace).outcome =
          ServerOutcome.interrupted
        ∧ (start_server lh lp false SetupOutcome.ok trace).raised = none
        ∧ ∀ ls ∈ (start_server lh lp false SetupOutcome.ok trace).serverSock,
            ls.sock.closed = true) := by
  constructor
  · intro lh lp ce e trace
    cases ce <;>
      simp [start_server, setupListenSock, PySocket.close]
  · intro lh lp trace hk
    have hs : (acceptLoop trace).stopped = true := by
      rw [acceptLoop_stopped_any]
      exact hk
    simp [start_server, setupListenSock, hs, PySocket.close]

/-- Witness: a trace holding a `KeyboardInterrupt` exits the server
cleanly with the listening socket closed and nothing raised. -/
theorem bind_listen_fatal_interrupt_clean_witness :
    (start_server "0.0.0.0" 8080 false SetupOutcome.ok [AcceptEvent.kbi]).outcome =
      ServerOutcome.interrupted
    ∧ (start_server "0.0.0.0" 8080 false SetupOutcome.ok [AcceptEvent.kbi]).raised =
      none :=
  ⟨(bind_listen_fatal_interrupt_clean.2 "0.0.0.0" 8080 [AcceptEvent.kbi] (by decide)).1,
   (bind_listen_fatal_interrupt_clean.2 "0.0.0.0" 8080 [AcceptEvent.kbi] (by decide)).2.1⟩

/-- C9: the configuration surface is exactly the four options with
their defaults, each overridable on the command line; the listening
socket is opened with address reuse enabled and a fixed backlog of 5. -/
theorem config_surface_and_listen_options :
    parse_args none none none none =
      ⟨DEFAULT_LOCAL_HOST, DEFAULT_LOCAL_PORT, DEFAULT_REMOTE_HOST,
       DEFAULT_REMOTE_PORT⟩
    ∧ (∀ (a : String) (b : Int) (c : String) (d : Int),
        parse_args (some a) (some b) (some c) (some d) = ⟨a, b, c, d⟩)
    ∧ (∀ x : Args, x = ⟨x.local_host, x.local_port, x.remote_host, x.remote_port⟩)
    ∧ (∀ (lh : String) (lp : Int) (ce : Bool),
        setupListenSock lh lp ce SetupOutcome.ok =
          some ⟨⟨false, ce⟩, true, some (lh, lp), some 5⟩) := by
  refine ⟨rfl, fun a b c d => rfl, ?_, fun lh lp ce => rfl⟩
  intro x
  cases x
  rfl

/-- C10: on the connect-failure path, whenever the remote socket object
was created before the failure, it is closed too (provided the client
close itself does not fail at the OS level); when the failure happened
at socket creation, no remote socket object ever existed. -/
theorem connect_failure_closes_remote_socket
    (clientSock : PySocket) (rce : Bool) (hc : clientSock.closeErr = false) :
    (∀ e, (handle_client_connection clientSock rce
        (ConnectOutcome.connectFail e)).remoteSock = some ⟨true, rce⟩)
    ∧ (∀ e, (handle_client_connection clientSock rce
        (ConnectOutcome.createFail e)).remoteSock = none) := by
  rcases clientSock with ⟨c, f⟩
  simp only at hc
  subst hc
  constructor
  · intro e
    cases c <;> cases rce <;>
      simp [handle_client_connection, PySocket.close]
  · intro e
    cases c <;>
      simp [handle_client_connection, PySocket.close]

/-- Witness: a failed connect with an existing remote socket object
leaves that object closed. -/
theorem connect_failure_closes_remote_socket_witness :
    (handle_client_connection ⟨false, false⟩ true
        (ConnectOutcome.connectFail SocketErr.reset)).remoteSock =
      some ⟨true, true⟩ :=
  (connect_failure_closes_remote_socket ⟨false, false⟩ true rfl).1 SocketErr.reset
